import Mathlib

/-!
Verification of the Gene Network Dashboard core pipeline
(src/gene_network_dashboard.py) against its design specification.

The embedding models, from the source:
  * graph construction from an edge table (`draw_networkx_graph`, lines 45-47:
    `nx.Graph` with `G.add_edge(str(row[src]), str(row[tgt]))` per row);
  * the STRING fetch boundary (`query_string_edges`, lines 29-38: try/except
    around `requests.get` + `r.json()`, exceptions yield `[]` plus a message);
  * the pandas processing of the response (lines 76-88: `pd.DataFrame` from a
    JSON value, named-column access, column selection, CSV download);
  * the evaluation score table (lines 144-168: default scores, slider-driven
    cell overwrites, the derived Total column, and `to_csv` export).
Machine floats never reach a verified property: scores are carried as exact
rationals and layout coordinates as integers.
-/

/-! ## Graph model (networkx `nx.Graph`): node set plus set of unordered edges -/

@[ext]
structure SGraph where
  nodes : Finset String
  edges : Finset (Sym2 String)
deriving DecidableEq

/-- `G.add_edge(u, v)` of networkx: inserts both endpoints into the node set and
the unordered pair into the edge set (simple undirected graph). -/
def add_edge (G : SGraph) (u v : String) : SGraph :=
  { nodes := insert u (insert v G.nodes), edges := insert s(u, v) G.edges }

/-- Graph construction loop of `draw_networkx_graph` (src lines 45-47): start
from the empty graph and `add_edge` the two endpoint columns of each row, in
row order. -/
def buildGraph (rows : List (String × String)) : SGraph :=
  rows.foldl (fun G r => add_edge G r.1 r.2) ⟨∅, ∅⟩

/-! ## JSON values and the pandas fragment the script uses -/

/-- JSON values as returned by `r.json()`.  `jnull` doubles as the NaN that
pandas fills in for a key missing from a record. -/
inductive Json where
  | jnull
  | jbool (b : Bool)
  | jnum (q : ℚ)
  | jstr (s : String)
  | jarr (xs : List Json)
  | jobj (fields : List (String × Json))

/-- Python truthiness of a JSON value (`if string_edges:` at src line 77). -/
def truthy : Json → Bool
  | Json.jnull => false
  | Json.jbool b => b
  | Json.jnum q => !(q == 0)
  | Json.jstr s => !s.isEmpty
  | Json.jarr xs => !xs.isEmpty
  | Json.jobj fs => !fs.isEmpty

/-- A DataFrame record: the field list of one JSON object. -/
abbrev Record := List (String × Json)

/-- `pd.DataFrame(j)` (src line 78) on the shapes the script can receive: a JSON
array of objects becomes one record per object; a JSON object whose values are
all scalars raises pandas' ValueError.  Other inputs also fail the script run
(pandas would build a frame with positional columns there and the subsequent
named-column access raises); they are modelled as an immediate error. -/
def dfOfJson : Json → Except String (List Record)
  | Json.jarr xs =>
      if xs.all (fun x => match x with | Json.jobj _ => true | _ => false) then
        Except.ok (xs.map (fun x => match x with | Json.jobj fs => fs | _ => []))
      else Except.error "DataFrame: array elements are not records"
  | Json.jobj fs =>
      if fs.all (fun kv => match kv.2 with | Json.jarr _ => false | _ => true) then
        Except.error "ValueError: If using all scalar values, you must pass an index"
      else Except.error "DataFrame: dict-of-arrays input not produced by this API"
  | _ => Except.error "DataFrame: unsupported input"

/-- Column labels of `pd.DataFrame(records)`: union of the record keys in order
of first appearance. -/
def dfColumns (records : List Record) : List String :=
  records.foldl (fun acc r => acc ++ (r.map Prod.fst).filter (fun k => !acc.contains k)) []

/-- Cell access: a key missing from a record reads as NaN (`jnull`). -/
def getCol (r : Record) (c : String) : Json :=
  (r.lookup c).getD Json.jnull

/-- `df[c]` (src line 79): KeyError when `c` is not a column, otherwise the
column values with NaN filled in for records lacking the key. -/
def colVals (records : List Record) (c : String) : Except String (List Json) :=
  if (dfColumns records).contains c then
    Except.ok (records.map (fun r => getCol r c))
  else Except.error ("KeyError: " ++ c)

/-- `df[[c1, ..., cn]]` (src line 81): KeyError on the first missing column,
otherwise one row per record restricted to the requested columns, NaN-filled. -/
def selectCols (records : List Record) (cols : List String) : Except String (List (List Json)) :=
  match cols.find? (fun c => !(dfColumns records).contains c) with
  | some c => Except.error ("KeyError: " ++ c)
  | none => Except.ok (records.map (fun r => cols.map (fun c => getCol r c)))

/-- Python `str()` of a cell, as used for graph node labels (src line 47);
`str(nan)` is `"nan"`.  Container reprs are abbreviated: no record endpoint in
the modelled flows is a container. -/
def pyStr : Json → String
  | Json.jstr s => s
  | Json.jnull => "nan"
  | Json.jnum q => toString q
  | Json.jbool b => if b then "True" else "False"
  | Json.jarr _ => "<list>"
  | Json.jobj _ => "<dict>"

/-- Cell rendering of `to_csv`: strings verbatim, NaN as the empty field. -/
def csvCell : Json → String
  | Json.jstr s => s
  | Json.jnull => ""
  | Json.jnum q => toString q
  | Json.jbool b => if b then "True" else "False"
  | Json.jarr _ => "<list>"
  | Json.jobj _ => "<dict>"

/-- One CSV line: fields joined by commas, newline-terminated. -/
def csvRow : List String → String
  | [] => "\n"
  | [c] => c ++ "\n"
  | c :: cs => c ++ "," ++ csvRow cs

/-- CSV text: concatenation of the rendered rows. -/
def csvOfRows : List (List String) → String
  | [] => ""
  | r :: rs => csvRow r ++ csvOfRows rs

/-- `se_df[["preferredName_A", "preferredName_B"]].to_csv(index=False)`
(src line 86): header row then, per record, the two endpoint cells. -/
def edge_csv (records : List Record) : String :=
  csvOfRows (["preferredName_A", "preferredName_B"] ::
    records.map (fun r => ["preferredName_A", "preferredName_B"].map (fun c => csvCell (getCol r c))))

/-- `draw_networkx_graph(se_df, A, B)` (src lines 41-52): `None` when the frame
is empty (nothing drawn), otherwise the graph over the stringified endpoint
columns. -/
def draw_networkx_graph (records : List Record) (src tgt : String) : Option SGraph :=
  if records.isEmpty then none
  else some (buildGraph (records.map (fun r => (pyStr (getCol r src), pyStr (getCol r tgt)))))

/-! ## The STRING section of the script (src lines 55, 76-88) -/

/-- What the STRING section produces when the script run does not raise:
`none` models the `st.info("No STRING network returned ...")` branch. -/
structure SectionOut where
  edgeCount : Nat
  graph : Option SGraph
  download : String
deriving DecidableEq

/-- `query_string_edges(genes)` (src lines 29-38): the argument stands for the
combined outcome of `requests.get` + `r.json()` — `Except.error` when either
raises (timeout, connection error, undecodable body), `Except.ok` with the HTTP
status and decoded body otherwise.  The status is never inspected by the code.
An exception is caught and yields `[]` plus the `st.error` message; one request
is attempted per invocation either way. -/
def query_string_edges (resp : Except String (Nat × Json)) : Json × List String :=
  match resp with
  | Except.ok sj => (sj.2, [])
  | Except.error e => (Json.jarr [], ["STRING-db API error: " ++ e])

/-- Body of the `if string_edges:` block (src lines 77-88): DataFrame build,
the two named-column accesses of line 79, the three-column selection of
line 81, the graph drawing and the edge download.  `Except.error` models an
uncaught exception crashing the script run. -/
def string_section (j : Json) : Except String (Option SectionOut) :=
  if truthy j then do
    let records ← dfOfJson j
    let _colA ← colVals records "preferredName_A"
    let _colB ← colVals records "preferredName_B"
    let _shown ← selectCols records ["preferredName_A", "preferredName_B", "score"]
    pure (some ⟨records.length,
      draw_networkx_graph records "preferredName_A" "preferredName_B",
      edge_csv records⟩)
  else Except.ok none

/-- Observable outcome of one script run for the STRING section: number of
HTTP requests attempted, `st.error` messages emitted, and the section result
(`Except.error` = uncaught exception). -/
structure RunOut where
  calls : Nat
  warnings : List String
  result : Except String (Option SectionOut)

/-- The guarded main flow (src line 55, `if run_networks and genes:`): the
STRING fetch and section run only when the button was clicked and the gene
list is non-empty; otherwise nothing is fetched or rendered. -/
def run_string_pipeline (clicked : Bool) (genes : List String)
    (resp : Except String (Nat × Json)) : RunOut :=
  if clicked && !genes.isEmpty then
    let qr := query_string_edges resp
    { calls := 1, warnings := qr.2, result := string_section qr.1 }
  else { calls := 0, warnings := [], result := Except.ok none }

/-! ## Specification-side definitions used for comparison -/

/-- Spec-side definition, for comparison with `edge_csv`: the spec's export
artifact (a) is "the deduplicated edge list (two endpoint columns)". -/
def dedup_edge_csv (records : List Record) : String :=
  csvOfRows (["preferredName_A", "preferredName_B"] ::
    (records.map (fun r => ["preferredName_A", "preferredName_B"].map (fun c => csvCell (getCol r c)))).dedup)

/-- The amended description of the edge export: header plus one data row per
input record, in input order, each row the two endpoint cells. -/
def raw_edge_csv (records : List Record) : String :=
  csvRow ["preferredName_A", "preferredName_B"] ++
    csvOfRows (records.map (fun r => [csvCell (getCol r "preferredName_A"), csvCell (getCol r "preferredName_B")]))

/-- Spec-side definition of lenient parsing: drop every record missing one of
the two endpoint names or a numeric score. -/
def dropMalformed (records : List Record) : List Record :=
  records.filter (fun r =>
    (r.lookup "preferredName_A").isSome && (r.lookup "preferredName_B").isSome &&
      (match r.lookup "score" with | some (Json.jnum _) => true | _ => false))

/-! ## Concrete records used by the scenarios -/

/-- The spec scenario record
`{"preferredName_A": "FSHR", "preferredName_B": "LHCGR", "score": 0.9}`. -/
def rec1 : Record :=
  [("preferredName_A", Json.jstr "FSHR"), ("preferredName_B", Json.jstr "LHCGR"),
   ("score", Json.jnum (9 / 10))]

/-- A well-formed record with all three fields. -/
def goodRec : Record := rec1

/-- A malformed record: endpoint B and the score are missing. -/
def badRec : Record := [("preferredName_A", Json.jstr "GNRHR")]

/-- A realistic failing HTTP exchange: status 400 with a JSON error body — the
request itself raises nothing, so the `try` block catches nothing. -/
def badResp : Except String (Nat × Json) :=
  Except.ok (400, Json.jarr [Json.jobj
    [("Error", Json.jstr "bad identifiers"), ("ErrorMessage", Json.jstr "no mapping found")]])

/-! ## Layout engine -/

/-- Modelled from the spec: the spring-layout internals (`nx.spring_layout`,
called at src line 49 with the pinned `seed=42`) are library code absent from
the repository.  Per the spec the layout is a deterministic function of the
graph and the seed, driven by an explicit seeded pseudo-random generator.
This is the generator step. -/
def lcg (s : Nat) : Nat := (1103515245 * s + 12345) % 2147483648

/-- Modelled from the spec: seeded initial coordinates, one pair of draws per
node, threading the generator state. -/
def drawCoords : List String → Nat → List (String × Int × Int)
  | [], _ => []
  | n :: ns, s =>
    let s1 := lcg s
    let s2 := lcg s1
    (n, (Int.ofNat (s1 % 1000), Int.ofNat (s2 % 1000))) :: drawCoords ns s2

/-- Modelled from the spec: one attraction step of the force simulation — each
node moves toward the mean of its graph neighbours. -/
def adjStep (G : SGraph) (ps : List (String × Int × Int)) : List (String × Int × Int) :=
  ps.map (fun q =>
    let nbrs := ps.filter (fun m => m.1 != q.1 && decide (s(q.1, m.1) ∈ G.edges))
    let dx := (nbrs.map (fun m => m.2.1 - q.2.1)).sum
    let dy := (nbrs.map (fun m => m.2.2 - q.2.2)).sum
    (q.1, (q.2.1 + dx / ((nbrs.length : Int) + 1), q.2.2 + dy / ((nbrs.length : Int) + 1))))

/-- Modelled from the spec: `spring_layout(G, seed)` — deterministic seeded
initial positions over the nodes in a canonical order, then a force step using
the edge structure. -/
def spring_layout (G : SGraph) (seed : Nat) : List (String × Int × Int) :=
  adjStep G (drawCoords (G.nodes.sort (· ≤ ·)) seed)

/-! ## Evaluation score table (src lines 134-168) -/

/-- The seven criterion labels, in declaration order (src lines 134-142). -/
def criteria : List String :=
  ["🧬 Biological Context", "🔄 Network Connectivity", "💊 Clinical Utility",
   "🤖 AI-readiness", "🛠 Interoperability", "🧑‍⚕️ Clinical Explainability",
   "🎯 Visual Insight"]

/-- The six tool names, in declaration order (src lines 144-151). -/
def tools : List String :=
  ["GeneMANIA", "STRING-db", "GAINT", "Cytoscape+ClueGO", "NetworkX", "Pathway Commons"]

/-- The literal default score rows (src lines 144-151). -/
def default_scores : List (String × List Int) :=
  [("GeneMANIA", [5, 5, 2, 3, 5, 3, 5]),
   ("STRING-db", [4, 5, 3, 4, 5, 2, 5]),
   ("GAINT", [5, 5, 3, 4, 5, 2, 5]),
   ("Cytoscape+ClueGO", [4, 4, 2, 5, 5, 3, 5]),
   ("NetworkX", [1, 3, 1, 5, 5, 1, 2]),
   ("Pathway Commons", [5, 5, 2, 5, 5, 2, 4])]

/-- Cell of the default matrix `pd.DataFrame(default_scores, index=criteria).T`
(src line 153). -/
def default_cell (t c : String) : Int :=
  ((default_scores.lookup t).getD []).getD (criteria.findIdx (· == c)) 0

/-- The slider loop (src lines 155-165) overwrites every cell of `df_eval` with
the slider's current value, so the frame after the loop holds exactly the
current per-cell values `σ t c` (the untouched-slider run is `σ = default_cell`). -/
def df_eval_rows (σ : String → String → Int) : List (String × List Int) :=
  tools.map (fun t => (t, criteria.map (σ t)))

/-- `df_eval["Total Score"] = df_eval[criteria].sum(axis=1)` (src line 166):
each row gains the sum of its criterion cells, computed after the edit loop. -/
def eval_with_total (σ : String → String → Int) : List (String × List Int × Int) :=
  (df_eval_rows σ).map (fun p => (p.1, p.2, p.2.sum))

/-- `df_eval.to_csv()` (src line 168): index label column first (blank header
cell, tool name per row), then the criterion columns in declaration order,
then the Total column last. -/
def export_eval_csv (σ : String → String → Int) : String :=
  csvOfRows (("" :: criteria ++ ["Total Score"]) ::
    (eval_with_total σ).map (fun p => p.1 :: (p.2.1.map toString ++ [toString p.2.2])))

/-- Spec-side rendering of export artifact (b): one row per tool holding the
current cell values in criterion declaration order, the live total last. -/
def export_eval_spec (σ : String → String → Int) : String :=
  csvOfRows (("" :: criteria ++ ["Total Score"]) ::
    tools.map (fun t =>
      t :: (criteria.map (fun c => toString (σ t c)) ++ [toString (criteria.map (σ t)).sum])))

/-! ## Score mutation boundary -/

/-- Session score state: current cell value per (tool, criterion). -/
abbrev ScoreMap := String → String → Int

/-- Pointwise cell update. -/
def update_score (m : ScoreMap) (t c : String) (v : Int) : ScoreMap :=
  fun t2 c2 => if t2 = t ∧ c2 = c then v else m t2 c2

/-- Modelled from the spec: the source has no `setScore` function — its score
mutation boundary is the slider configuration `min_value=1, max_value=5`
(src lines 158-164), which makes values outside [1,5] unenterable.  Per the
spec, `setScore` rejects an out-of-range value with RangeError and otherwise
updates the one cell. -/
def setScore (m : ScoreMap) (t c : String) (v : Int) : Except String ScoreMap :=
  if 1 ≤ v ∧ v ≤ 5 then Except.ok (update_score m t c v) else Except.error "RangeError"

/-- Session state after an attempted edit: on rejection the prior map is kept. -/
def apply_edit (m : ScoreMap) (t c : String) (v : Int) : ScoreMap :=
  ((setScore m t c v).toOption).getD m

/-! ## Helper lemmas: graph construction -/

theorem mem_nodes_foldl (rows : List (String × String)) (G : SGraph) (x : String) :
    x ∈ (rows.foldl (fun H r => add_edge H r.1 r.2) G).nodes ↔
      x ∈ G.nodes ∨ ∃ e ∈ rows, x = e.1 ∨ x = e.2 := by
  induction rows generalizing G with
  | nil => simp
  | cons e rows ih =>
    rw [List.foldl_cons, ih]
    simp only [add_edge, Finset.mem_insert, List.mem_cons]
    aesop

theorem mem_edges_foldl (rows : List (String × String)) (G : SGraph) (p : Sym2 String) :
    p ∈ (rows.foldl (fun H r => add_edge H r.1 r.2) G).edges ↔
      p ∈ G.edges ∨ ∃ e ∈ rows, p = s(e.1, e.2) := by
  induction rows generalizing G with
  | nil => simp
  | cons e rows ih =>
    rw [List.foldl_cons, ih]
    simp only [add_edge, Finset.mem_insert, List.mem_cons]
    aesop

theorem mem_nodes_buildGraph (rows : List (String × String)) (x : String) :
    x ∈ (buildGraph rows).nodes ↔ ∃ e ∈ rows, x = e.1 ∨ x = e.2 := by
  simp [buildGraph, mem_nodes_foldl]

theorem mem_edges_buildGraph (rows : List (String × String)) (p : Sym2 String) :
    p ∈ (buildGraph rows).edges ↔ ∃ e ∈ rows, p = s(e.1, e.2) := by
  simp [buildGraph, mem_edges_foldl]

theorem buildGraph_eq_of_mem_iff {l1 l2 : List (String × String)}
    (h : ∀ e, e ∈ l1 ↔ e ∈ l2) : buildGraph l1 = buildGraph l2 := by
  ext x
  · simp only [mem_nodes_buildGraph]
    constructor
    · rintro ⟨e, he, hx⟩; exact ⟨e, (h e).mp he, hx⟩
    · rintro ⟨e, he, hx⟩; exact ⟨e, (h e).mpr he, hx⟩
  · simp only [mem_edges_buildGraph]
    constructor
    · rintro ⟨e, he, hx⟩; exact ⟨e, (h e).mp he, hx⟩
    · rintro ⟨e, he, hx⟩; exact ⟨e, (h e).mpr he, hx⟩

/-! ## Claims about graph construction -/

/-- C1: for every edge list, the graph `draw_networkx_graph` builds has edges
invariant under permutation and duplication of the list; both endpoints of
each edge enter the node set, the unordered pair enters the edge set, and
duplicate pairs in either order collapse to one edge. -/
theorem claim_C1 :
    (∀ l1 l2 : List (String × String), l1.Perm l2 → buildGraph l1 = buildGraph l2) ∧
    (∀ (e : String × String) (E : List (String × String)),
      buildGraph (e :: e :: E) = buildGraph (e :: E)) ∧
    (∀ (a b : String) (E : List (String × String)),
      buildGraph ((a, b) :: (b, a) :: E) = buildGraph ((a, b) :: E)) ∧
    (∀ (E : List (String × String)) (a b : String), (a, b) ∈ E →
      a ∈ (buildGraph E).nodes ∧ b ∈ (buildGraph E).nodes ∧
        s(a, b) ∈ (buildGraph E).edges) := by
  refine ⟨?_, ?_, ?_, ?_⟩
  · intro l1 l2 h
    exact buildGraph_eq_of_mem_iff (fun e => h.mem_iff)
  · intro e E
    ext x
    · simp only [mem_nodes_buildGraph, List.mem_cons]
      aesop
    · simp only [mem_edges_buildGraph, List.mem_cons]
      aesop
  · intro a b E
    ext x
    · simp only [mem_nodes_buildGraph, List.mem_cons]
      aesop
    · simp only [mem_edges_buildGraph, List.mem_cons]
      constructor
      · rintro ⟨f, (rfl | rfl | hf), h⟩
        · exact ⟨(a, b), Or.inl rfl, h⟩
        · exact ⟨(a, b), Or.inl rfl, by simpa [Sym2.eq_swap] using h⟩
        · exact ⟨f, Or.inr hf, h⟩
      · rintro ⟨f, (rfl | hf), h⟩
        · exact ⟨(a, b), Or.inl rfl, h⟩
        · exact ⟨f, Or.inr (Or.inr hf), h⟩
  · intro E a b h
    refine ⟨?_, ?_, ?_⟩
    · exact (mem_nodes_buildGraph E a).mpr ⟨(a, b), h, Or.inl rfl⟩
    · exact (mem_nodes_buildGraph E b).mpr ⟨(a, b), h, Or.inr rfl⟩
    · exact (mem_edges_buildGraph E s(a, b)).mpr ⟨(a, b), h, rfl⟩

/-- Witness for C1 at concrete inputs: a transposition of a two-edge list and
endpoint membership for a one-edge list. -/
theorem claim_C1_witness :
    buildGraph [("A", "B"), ("C", "D")] = buildGraph [("C", "D"), ("A", "B")] ∧
    ("A" ∈ (buildGraph [("A", "B")]).nodes ∧ "B" ∈ (buildGraph [("A", "B")]).nodes ∧
      s("A", "B") ∈ (buildGraph [("A", "B")]).edges) :=
  ⟨claim_C1.1 _ _ (by decide), claim_C1.2.2.2 [("A", "B")] "A" "B" (by decide)⟩

/-- C10: the node set of every graph the visualization builds is exactly the
set of endpoints of the input rows, and every node has an incident edge — no
isolated nodes, no other route into the graph. -/
theorem claim_C10 : ∀ E : List (String × String),
    (∀ x : String, x ∈ (buildGraph E).nodes ↔ ∃ e ∈ E, x = e.1 ∨ x = e.2) ∧
    (∀ x ∈ (buildGraph E).nodes, ∃ p ∈ (buildGraph E).edges, x ∈ p) := by
  intro E
  refine ⟨fun x => mem_nodes_buildGraph E x, ?_⟩
  intro x hx
  obtain ⟨e, he, hxe⟩ := (mem_nodes_buildGraph E x).mp hx
  refine ⟨s(e.1, e.2), (mem_edges_buildGraph E _).mpr ⟨e, he, rfl⟩, ?_⟩
  rcases hxe with rfl | rfl
  · exact Sym2.mem_mk_left _ _
  · exact Sym2.mem_mk_right _ _

/-- Witness for C10 at a concrete one-edge input: the node characterization at
node "A" and an incident edge for the node "A". -/
theorem claim_C10_witness :
    ("A" ∈ (buildGraph [("A", "B")]).nodes ↔
      ∃ e ∈ [("A", "B")], "A" = e.1 ∨ "A" = e.2) ∧
    (∃ p ∈ (buildGraph [("A", "B")]).edges, "A" ∈ p) :=
  ⟨(claim_C10 [("A", "B")]).1 "A", (claim_C10 [("A", "B")]).2 "A" (by decide)⟩

/-! ## Claim about the layout engine -/

theorem drawCoords_map_fst (l : List String) (s : Nat) :
    (drawCoords l s).map Prod.fst = l := by
  induction l generalizing s with
  | nil => simp [drawCoords]
  | cons n ns ih => simp [drawCoords, ih]

theorem adjStep_map_fst (G : SGraph) (ps : List (String × Int × Int)) :
    (adjStep G ps).map Prod.fst = ps.map Prod.fst := by
  simp only [adjStep, List.map_map]
  rfl

/-- C2: for every graph and every fixed seed, the layout is a deterministic
function of the graph and the seed — two runs with the same seed agree — and
every node of the graph receives a coordinate pair. -/
theorem claim_C2 : ∀ (G : SGraph) (s1 s2 : Nat) (n : String), s1 = s2 →
    spring_layout G s1 = spring_layout G s2 ∧
    (n ∈ G.nodes → ∃ x y : Int, (n, x, y) ∈ spring_layout G s1) := by
  intro G s1 s2 n h
  subst h
  refine ⟨rfl, fun hn => ?_⟩
  have hmem : n ∈ (spring_layout G s1).map Prod.fst := by
    rw [spring_layout, adjStep_map_fst, drawCoords_map_fst]
    exact (Finset.mem_sort _).mpr hn
  obtain ⟨q, hq, hfst⟩ := List.mem_map.mp hmem
  obtain ⟨m, x, y⟩ := q
  cases hfst
  exact ⟨x, y, hq⟩

/-- Witness for C2: the two-node graph of the scenario edge, seed 42 (the
seed pinned at src line 49), node "A". -/
theorem claim_C2_witness :
    spring_layout (buildGraph [("A", "B")]) 42 = spring_layout (buildGraph [("A", "B")]) 42 ∧
    (∃ x y : Int, ("A", x, y) ∈ spring_layout (buildGraph [("A", "B")]) 42) :=
  ⟨(claim_C2 (buildGraph [("A", "B")]) 42 42 "A" rfl).1,
   (claim_C2 (buildGraph [("A", "B")]) 42 42 "A" rfl).2 (by decide)⟩

/-! ## Claims about the fetch/pipeline boundary -/

/-- C5: with an empty gene list the guarded main flow (src line 55) performs
zero network calls, emits no message, and runs no STRING section — downstream
receives no edges. -/
theorem claim_C5 : ∀ (clicked : Bool) (resp : Except String (Nat × Json)),
    run_string_pipeline clicked [] resp =
      { calls := 0, warnings := [], result := Except.ok none } := by
  intro clicked resp
  simp [run_string_pipeline]

/-- C6 (amended): a fetch failure that raises an exception (timeout, connection
error, undecodable body) is caught at the fetch boundary, surfaced as a
user-visible error message, and yields zero edges downstream without crashing;
however a non-2xx response whose body parses as JSON is not caught at the
fetch boundary and can crash the run downstream. -/
theorem claim_C6 : (∀ (e : String) (g : String) (gs : List String),
    run_string_pipeline true (g :: gs) (Except.error e) =
      { calls := 1, warnings := ["STRING-db API error: " ++ e],
        result := Except.ok none }) ∧
    (run_string_pipeline true ["FSHR"] badResp).result =
      Except.error "KeyError: preferredName_A" := by
  constructor
  · intro e g gs
    simp [run_string_pipeline, query_string_edges, string_section, truthy]
  · rfl

/-- Counterexample to C6 as stated: the concrete network failure `badResp`
(HTTP 400 carrying a JSON error body) is not caught at the fetch boundary — no
warning is emitted and the run crashes with an uncaught KeyError instead of
yielding zero edges. -/
theorem claim_C6_counterexample :
    (run_string_pipeline true ["FSHR"] badResp).warnings = [] ∧
    (run_string_pipeline true ["FSHR"] badResp).result =
      Except.error "KeyError: preferredName_A" :=
  ⟨rfl, rfl⟩

/-! ## Claims about the exported edge CSV and lenient parsing -/

/-- C3 (amended): the exported edge CSV is the edge list exactly as returned by
the API — header plus one data row per record, in input order, endpoint
columns in (source, target) order, with no deduplication; in the one-record
scenario it is the header plus exactly the data row `FSHR,LHCGR`. -/
theorem claim_C3 :
    (∀ records : List Record, edge_csv records = raw_edge_csv records) ∧
    edge_csv [rec1] = "preferredName_A,preferredName_B\nFSHR,LHCGR\n" := by
  refine ⟨fun records => rfl, ?_⟩
  decide

/-- Counterexample to C3 as stated: a response containing the same record twice
is exported with two identical data rows — the exported CSV is not the
deduplicated edge list. -/
theorem claim_C3_counterexample :
    edge_csv [rec1, rec1] = "preferredName_A,preferredName_B\nFSHR,LHCGR\nFSHR,LHCGR\n" ∧
    dedup_edge_csv [rec1, rec1] = "preferredName_A,preferredName_B\nFSHR,LHCGR\n" ∧
    edge_csv [rec1, rec1] ≠ dedup_edge_csv [rec1, rec1] := by
  refine ⟨by decide, by decide, by decide⟩

/-- C4 (amended): a record missing one of the endpoint-name fields or the
score field is not dropped — it is retained with NaN placeholders for the
missing cells — and the batch is processed in full whenever each of the three
columns appears in at least one record; so one malformed record among
well-formed ones never fails the whole batch. -/
theorem claim_C4 : ∀ records : List Record,
    (dfColumns records).contains "preferredName_A" = true →
    (dfColumns records).contains "preferredName_B" = true →
    (dfColumns records).contains "score" = true →
    ∃ t, selectCols records ["preferredName_A", "preferredName_B", "score"] = Except.ok t ∧
      t.length = records.length := by
  intro records h1 h2 h3
  have hf : (["preferredName_A", "preferredName_B", "score"].find?
      (fun c => !(dfColumns records).contains c)) = none := by
    rw [List.find?_eq_none]
    intro c hc
    simp only [List.mem_cons, List.not_mem_nil, or_false] at hc
    rcases hc with rfl | rfl | rfl
    · simpa using h1
    · simpa using h2
    · simpa using h3
  refine ⟨records.map (fun r =>
    ["preferredName_A", "preferredName_B", "score"].map (fun c => getCol r c)), ?_, by simp⟩
  unfold selectCols
  rw [hf]

/-- Witness for C4 at the concrete batch [goodRec, badRec]: all three columns
appear (goodRec has them), so the selection succeeds with both records. -/
theorem claim_C4_witness :
    ∃ t, selectCols [goodRec, badRec] ["preferredName_A", "preferredName_B", "score"] =
      Except.ok t ∧ t.length = [goodRec, badRec].length :=
  claim_C4 [goodRec, badRec] (by decide) (by decide) (by decide)

/-- Counterexample to C4 as stated: in the batch [goodRec, badRec] the record
missing `preferredName_B` and `score` is not dropped — the processed table
keeps it, with NaN cells — so the processed row count differs from the
row count after the drop the claim describes. -/
theorem claim_C4_counterexample :
    selectCols [goodRec, badRec] ["preferredName_A", "preferredName_B", "score"] =
      Except.ok [[Json.jstr "FSHR", Json.jstr "LHCGR", Json.jnum (9 / 10)],
        [Json.jstr "GNRHR", Json.jnull, Json.jnull]] ∧
    (dropMalformed [goodRec, badRec]).length = 1 ∧
    (selectCols [goodRec, badRec] ["preferredName_A", "preferredName_B", "score"]).toOption.map
        List.length ≠ some ((dropMalformed [goodRec, badRec]).length) := by
  refine ⟨rfl, rfl, by decide⟩

/-! ## Claims about the score matrix -/

/-- C7: for every tool and criterion, a score edit to 0 or 6 is rejected with
RangeError and the prior cell values are retained, while edits to 1 and 5
succeed — out-of-range edits are stopped at the mutation boundary. -/
theorem claim_C7 : ∀ (m : ScoreMap) (t c : String),
    setScore m t c 0 = Except.error "RangeError" ∧ apply_edit m t c 0 = m ∧
    setScore m t c 6 = Except.error "RangeError" ∧ apply_edit m t c 6 = m ∧
    setScore m t c 1 = Except.ok (update_score m t c 1) ∧
    setScore m t c 5 = Except.ok (update_score m t c 5) := by
  intro m t c
  refine ⟨?_, ?_, ?_, ?_, ?_, ?_⟩ <;>
    norm_num [setScore, apply_edit, Except.toOption]

/-- C8: in the evaluation table the Total of every row equals the sum of that
row's current (possibly edited) criterion scores at the time the table is
formed — never a stale value — and with the untouched defaults the STRING-db
total is 4+5+3+4+5+2+5 = 28. -/
theorem claim_C8 :
    (∀ (σ : String → String → Int) (t : String) (row : List Int) (total : Int),
      (t, row, total) ∈ eval_with_total σ → total = (criteria.map (σ t)).sum) ∧
    (eval_with_total default_cell).lookup "STRING-db" =
      some ([4, 5, 3, 4, 5, 2, 5], 28) := by
  constructor
  · intro σ t row total hmem
    simp only [eval_with_total, df_eval_rows, List.map_map, List.mem_map,
      Function.comp] at hmem
    obtain ⟨t0, ht0, heq⟩ := hmem
    injection heq with h1 h23
    injection h23 with h2 h3
    subst h1
    subst h3
    rfl
  · decide

/-- Witness for C8: the concrete default-matrix row of STRING-db is in the
table and its total is the live sum of its scores. -/
theorem claim_C8_witness :
    (("STRING-db", ([4, 5, 3, 4, 5, 2, 5] : List Int), (28 : Int)) ∈
      eval_with_total default_cell) ∧
    (28 : Int) = (criteria.map (default_cell "STRING-db")).sum :=
  ⟨by decide, claim_C8.1 default_cell "STRING-db" [4, 5, 3, 4, 5, 2, 5] 28 (by decide)⟩

/-- C9: for every edited state, the exported score table is exactly the
spec-side rendering of the current in-memory state — one row per tool, the
criterion columns in declaration order, the Total column last. -/
theorem claim_C9 : ∀ σ : String → String → Int,
    export_eval_csv σ = export_eval_spec σ := by
  intro σ
  unfold export_eval_csv export_eval_spec eval_with_total df_eval_rows
  simp only [List.map_map, Function.comp_def]
